import Mathlib

/-!
Verification of the StoryDream Session Orchestration & Real-Time Bridging
Engine against its natural-language specification.

The definitions below are shallow embeddings of the TypeScript sources:
* `backend/src/render.ts`  — render job controller (status polling,
  completion-metadata fallback, cancellation, ceiling timeout);
* `backend/src/kubernetes.ts` — cluster compute backend (pod creation,
  readiness polling, registry, destruction, agent-session persistence);
* `backend/src/container.ts` — local docker compute backend;
* `backend/src/websocket.ts` (docker-era revision) — client connection
  bridge: disconnect grace timer scheduling;
* `project-container/agent/src/server.ts` — the in-sandbox agent server
  (system prompt vs. resume, `session_id` emission).

Asynchronous handlers are modelled as step functions over explicit state;
each `await` boundary that matters to the claims is a separate atomic step.
External calls (Kubernetes API, dockerode, Cloud Storage, Firestore) are
modelled as environment records carrying each call's outcome.
-/

namespace StoryDream

/-! ## Render job controller (`backend/src/render.ts`) -/

/-- `RenderJob.status` values. -/
inductive RStatus
  | pending
  | running
  | completed
  | failed
deriving DecidableEq

/-- A status is terminal when it is `completed` or `failed`. -/
def RStatus.isTerminal : RStatus → Bool
  | .completed => true
  | .failed => true
  | _ => false

/-- The forward order on statuses: `pending → running → {completed, failed}`,
terminal statuses absorbing.  This is the order the spec's monotonicity
invariant refers to. -/
def RStatus.le : RStatus → RStatus → Bool
  | .pending, _ => true
  | .running, .running => true
  | .running, .completed => true
  | .running, .failed => true
  | .completed, .completed => true
  | .failed, .failed => true
  | _, _ => false

/-- The completion-metadata object read from
`repos/{projectId}/renders/{renderId}.meta.json` (`readRenderMetadata`). -/
structure RenderMeta where
  status : String
  outputUrl : Option String
  error : Option String
deriving DecidableEq

/-- Outcome of one poll tick's reads: the `batchApi.readNamespacedJob` result
together with the completion-metadata read the same tick performs in the
branches that consult it.
* `succeeded`/`failedJob`: the job reports `succeeded > 0` / `failed > 0`;
* `active`: the job reports `active > 0`;
* `inconclusive`: the job exists but reports none of the three counts;
* `notFound`: the read threw with `statusCode = 404`;
* `readErr`: the read threw with a non-404 error (logged, tick does nothing). -/
inductive JobRead
  | succeeded (meta : Option RenderMeta)
  | failedJob (meta : Option RenderMeta)
  | active
  | inconclusive
  | notFound (meta : Option RenderMeta)
  | readErr
deriving DecidableEq

/-- Render lifecycle events published to the in-process listener list. -/
inductive RenderEvent
  | started
  | progress (progress : Nat)
  | complete (outputUrl : String)
  | failed (error : String)
deriving DecidableEq

/-- State of one render job together with its poller.
`pollActive` models the `setInterval` handle not yet cleared;
`ceilingArmed` models the 15-minute `setTimeout` not yet fired;
`inflight` models the poll callbacks that have performed their reads (the
`await`s) but not yet resumed to apply their branch — `setInterval` keeps
firing while earlier async callbacks are still awaiting, so several
callbacks can be pending at once and may resume in any order;
`emitted` is the log of events published so far. -/
structure RState where
  projectId : String
  renderId : String
  status : RStatus
  outputUrl : Option String
  error : Option String
  progress : Nat
  pollActive : Bool
  ceilingArmed : Bool
  inflight : List JobRead
  emitted : List RenderEvent
deriving DecidableEq

/-- The deterministic fallback artifact path used when the job succeeded but
no metadata (or no `outputUrl`) is available. -/
def renderFallbackUrl (projectId renderId : String) : String :=
  "https://storage.googleapis.com/storydream-data/repos/" ++ projectId ++
    "/renders/" ++ renderId ++ ".mp4"

/-- State just after `createRenderJob` registered the job and emitted
`render:started`: status `pending`, progress 0, poller started, ceiling armed. -/
def initialRenderState (projectId renderId : String) : RState :=
  { projectId := projectId
    renderId := renderId
    status := .pending
    outputUrl := none
    error := none
    progress := 0
    pollActive := true
    ceilingArmed := true
    inflight := []
    emitted := [.started] }

/-- Resume of a poll callback after its reads: the branch logic of
`watchJobStatus`'s interval body applied to the observed `JobRead`. -/
def applyRead (s : RState) : JobRead → RState
  | .succeeded meta =>
      let url := (meta.bind (·.outputUrl)).getD (renderFallbackUrl s.projectId s.renderId)
      { s with pollActive := false
               status := .completed
               progress := 100
               outputUrl := some url
               emitted := s.emitted ++ [.complete url] }
  | .failedJob meta =>
      let msg := (meta.bind (·.error)).getD "Render job failed - check K8s logs for details"
      { s with pollActive := false
               status := .failed
               error := some msg
               emitted := s.emitted ++ [.failed msg] }
  | .active =>
      if s.status = .running then s
      else
        { s with status := .running
                 progress := 10
                 emitted := s.emitted ++ [.progress 10] }
  | .inconclusive => s
  | .readErr => s
  | .notFound meta =>
      let s1 :=
        match meta with
        | some m =>
            match m.outputUrl with
            | some u =>
                if m.status = "completed" then
                  { s with status := .completed
                           progress := 100
                           outputUrl := some u
                           emitted := s.emitted ++ [RenderEvent.complete u] }
                else if m.status = "failed" then
                  let msg := m.error.getD "Render failed"
                  { s with status := .failed
                           error := some msg
                           emitted := s.emitted ++ [RenderEvent.failed msg] }
                else
                  { s with status := .failed
                           error := some "Job not found and no metadata available" }
            | none =>
                if m.status = "failed" then
                  let msg := m.error.getD "Render failed"
                  { s with status := .failed
                           error := some msg
                           emitted := s.emitted ++ [RenderEvent.failed msg] }
                else
                  { s with status := .failed
                           error := some "Job not found and no metadata available" }
        | none =>
            { s with status := .failed
                     error := some "Job not found and no metadata available" }
      { s1 with pollActive := false }

/-- Atomic events of the render subsystem.  A poll tick is split at its
`await` boundary into `tickRead` (the interval fires and the new callback's
reads complete, joining the pending callbacks) and `tickWrite idx` (the
pending callback at position `idx` resumes and applies its branch — the
index is free because responses can arrive and resume out of order).
`cancel` is `cancelRenderJob` (with the outcome of the
`deleteNamespacedJob` call), `ceiling` is the 15-minute `setTimeout` firing. -/
inductive REvent
  | tickRead (r : JobRead)
  | tickWrite (idx : Nat)
  | cancel (deleteOk : Bool)
  | ceiling
deriving DecidableEq

def REvent.isCancel : REvent → Bool
  | .cancel _ => true
  | _ => false

def REvent.isCeiling : REvent → Bool
  | .ceiling => true
  | _ => false

def REvent.isTickRead : REvent → Bool
  | .tickRead _ => true
  | _ => false

/-- One atomic step of the render subsystem.  `setInterval` fires a new
callback whenever the interval has not been cleared, even while earlier
callbacks are still pending. -/
def rstep (s : RState) : REvent → RState
  | .tickRead r =>
      if s.pollActive then { s with inflight := s.inflight ++ [r] } else s
  | .tickWrite idx =>
      match s.inflight[idx]? with
      | some r => applyRead { s with inflight := s.inflight.eraseIdx idx } r
      | none => s
  | .cancel deleteOk =>
      if s.status.isTerminal then s
      else if deleteOk then
        { s with status := .failed
                 error := some "Cancelled by user"
                 emitted := s.emitted ++ [.failed "Cancelled by user"] }
      else s
  | .ceiling =>
      if s.ceilingArmed then
        let s1 := { s with ceilingArmed := false, pollActive := false }
        if s1.status = .pending || s1.status = .running then
          { s1 with status := .failed
                    error := some "Render job timed out"
                    emitted := s1.emitted ++ [.failed "Render job timed out"] }
        else s1
      else s

/-- Run a sequence of render events. -/
def runR (s : RState) : List REvent → RState
  | [] => s
  | e :: tr => runR (rstep s e) tr

/-- The executions under which monotonicity is claimed to hold: no explicit
cancellation, and poll callbacks serialized — a new interval tick or the
ceiling timeout fires only when no earlier poll callback is still pending. -/
def goodR (s : RState) : List REvent → Bool
  | [] => true
  | e :: tr =>
      !e.isCancel && (!(e.isTickRead || e.isCeiling) || s.inflight.isEmpty) &&
        goodR (rstep s e) tr

/-- Structural invariant maintained by serialized executions: at most one
poll callback is pending, and once terminal, the interval has been cleared
and no callback is pending. -/
def RInv (s : RState) : Prop :=
  s.inflight.length ≤ 1 ∧
    (s.status.isTerminal = true → s.pollActive = false ∧ s.inflight = [])

/-- One entry of the in-memory `activeJobs` table. -/
structure RenderJob where
  renderId : String
  projectId : String
  status : RStatus
  createdAt : Nat
  completedAt : Option Nat
  outputUrl : Option String
  error : Option String
  progress : Nat
deriving DecidableEq

/-- `activeJobs.get(renderId)` over the job table. -/
def findJob (jobs : List RenderJob) (renderId : String) : Option RenderJob :=
  jobs.find? (fun j => j.renderId == renderId)

/-- `getProjectRenders`: filter the in-memory jobs by project and sort by
`createdAt` descending (the comparator `b.createdAt - a.createdAt`). -/
def getProjectRenders (jobs : List RenderJob) (projectId : String) : List RenderJob :=
  (jobs.filter (fun j => j.projectId == projectId)).mergeSort
    (fun a b => decide (b.createdAt ≤ a.createdAt))

/-- `cancelRenderJob`: no-op returning `false` when the job is unknown or
terminal; otherwise deletes the batch job (whose outcome is
`deleteResult`) and, when the deletion call succeeds, marks the job failed
with the cancellation reason, emits `render:failed` and returns `true`;
when the deletion call throws, the `catch` returns `false` with the job
unchanged.  Returns (result, job table, events emitted). -/
def cancelRenderJob (deleteResult : Except String Unit) (jobs : List RenderJob)
    (renderId : String) : Bool × List RenderJob × List RenderEvent :=
  match findJob jobs renderId with
  | none => (false, jobs, [])
  | some j =>
      if j.status = .completed ∨ j.status = .failed then (false, jobs, [])
      else
        match deleteResult with
        | .error _ => (false, jobs, [])
        | .ok _ =>
            (true,
             jobs.map (fun t =>
               if t.renderId == renderId then
                 { t with status := .failed, error := some "Cancelled by user" }
               else t),
             [.failed "Cancelled by user"])

/-! ## Cluster compute backend (`backend/src/kubernetes.ts`) -/

/-- An external project record, as far as the core consumes it
(`getProject` is used only to resolve `agentSessionId`). -/
structure Project where
  agentSessionId : Option String
deriving DecidableEq

/-- A cluster-mode `Session`. -/
structure Session where
  id : String
  shortId : String
  projectId : Option String
  podName : String
  serviceName : String
  podIp : Option String
  previewPort : Nat
  agentPort : Nat
  agentSessionId : Option String
  createdAt : Nat
deriving DecidableEq

/-- Errors surfaced by cluster `createSession`: the orchestration API
rejecting pod creation (rethrown original error) versus the readiness
timeout (`Timeout waiting for pod ... to be ready`). -/
inductive SessionError
  | startupFailure (msg : String)
  | readinessTimeout (podName : String)
deriving DecidableEq

/-- Outcome of one `readNamespacedPod` call inside `waitForPodReady`:
either the call threw (`statusCode` recorded for the 404 log filter), or a
pod status with `phase`, the container `ready` flags, and `podIP`. -/
inductive PodRead
  | readFailed (statusCode : Option Nat)
  | readOk (phase : String) (containersReady : List Bool) (podIP : Option String)
deriving DecidableEq

/-- One iteration of `waitForPodReady`'s loop: returns the pod IP when every
container is ready (non-empty container list) and an IP is assigned.  A
`Failed`/`Unknown` phase throws inside the `try`, which the loop's own
`catch` swallows, so it merely skips the readiness check for that tick. -/
def podTick : PodRead → Option String
  | .readFailed _ => none
  | .readOk phase containersReady podIP =>
      if phase = "Failed" ∨ phase = "Unknown" then none
      else
        match podIP with
        | some addr =>
            if containersReady.length > 0 ∧ containersReady.all (· = true) then some addr
            else none
        | none => none

/-- `waitForPodReady`: poll at a fixed 2s interval until ready or the 5-minute
timeout elapses; `none` is the timeout. -/
def waitForPodReady (reads : Nat → PodRead) : Nat → Nat → Option String
  | 0, _ => none
  | fuel + 1, tick =>
      match podTick (reads tick) with
      | some ip => some ip
      | none => waitForPodReady reads fuel (tick + 1)

/-- 300000 ms readiness timeout / 2000 ms poll interval. -/
def readinessFuel : Nat := 150

/-- Environment of one cluster `createSession` call: the `getProject` outcome
(its errors are caught and only logged), the `createNamespacedPod` outcome,
and the successive `readNamespacedPod` outcomes. -/
structure K8sEnv where
  projectLookup : Except Unit (Option Project)
  createPodResult : Except String Unit
  podReads : Nat → PodRead

/-- Cluster `createSession`.  `sessionId` stands for the generated uuid and
`now` for `new Date()`.  Returns the call's outcome together with the
session registry (`sessions` map) after the call: the registry gains the
new session only after `waitForPodReady` returned an IP. -/
def createSessionK8s (env : K8sEnv) (sessionId : String) (projectId : Option String)
    (now : Nat) (sessions : List Session) : Except SessionError Session × List Session :=
  let shortId := sessionId.take 8
  let podName := "session-" ++ shortId
  let agentSessionId : Option String :=
    match projectId with
    | some _ =>
        match env.projectLookup with
        | .ok (some p) => p.agentSessionId
        | _ => none
    | none => none
  match env.createPodResult with
  | .error msg => (.error (.startupFailure msg), sessions)
  | .ok _ =>
      match waitForPodReady env.podReads readinessFuel 0 with
      | none => (.error (.readinessTimeout podName), sessions)
      | some ip =>
          let s : Session :=
            { id := sessionId
              shortId := shortId
              projectId := projectId
              podName := podName
              serviceName := "session-" ++ shortId ++ "-svc"
              podIp := some ip
              previewPort := 3000
              agentPort := 3001
              agentSessionId := agentSessionId
              createdAt := now }
          (.ok s, sessions ++ [s])

/-- `getSession`: lookup in the in-memory registry. -/
def getSession (sessions : List Session) (sessionId : String) : Option Session :=
  sessions.find? (fun s => s.id == sessionId)

/-- `getSessionByShortId`: linear scan of the registry values. -/
def getSessionByShortId (sessions : List Session) (shortId : String) : Option Session :=
  sessions.find? (fun s => s.shortId == shortId)

/-- `getAllSessions`: the registry values. -/
def getAllSessions (sessions : List Session) : List Session :=
  sessions

/-- Environment of one cluster `destroySession` call: the outcomes of the
best-effort `syncSession` and of `deleteNamespacedPod`. -/
structure DestroyEnv where
  syncResult : Except String Unit
  deletePodResult : Except String Unit

/-- Cluster `destroySession`: no-op when the id is unknown; otherwise a
best-effort sync (project sessions only) and pod deletion, each wrapped in
its own `try`/`catch` so that neither outcome affects the removal, then
`sessions.delete(sessionId)`.  The function is total: no teardown error
propagates to the caller. -/
def destroySessionK8s (env : DestroyEnv) (sessions : List Session)
    (sessionId : String) : List Session :=
  match getSession sessions sessionId with
  | none => sessions
  | some s =>
      let _sync : Unit :=
        match s.projectId with
        | some _ => match env.syncResult with | .ok _ => () | .error _ => ()
        | none => ()
      let _delete : Unit :=
        match env.deletePodResult with | .ok _ => () | .error _ => ()
      sessions.filter (fun t => !(t.id == sessionId))

/-- `updateSessionAgentId`: record the agent's resume token on the session
and, when the session is project-backed, persist it through the external
`updateProject` collaborator (modelled as an association-list store). -/
def updateProjectStore (store : List (String × Project)) (projectId : String)
    (agentSessionId : String) : List (String × Project) :=
  store.map (fun kv =>
    if kv.1 == projectId then (kv.1, { kv.2 with agentSessionId := some agentSessionId })
    else kv)

/-- `getProject` over the modelled external store. -/
def lookupProject (store : List (String × Project)) (projectId : String) : Option Project :=
  (store.find? (fun kv => kv.1 == projectId)).map (·.2)

def updateSessionAgentId (store : List (String × Project)) (sessions : List Session)
    (sessionId agentSessionId : String) : List (String × Project) × List Session :=
  match getSession sessions sessionId with
  | none => (store, sessions)
  | some s =>
      let sessions' := sessions.map (fun t =>
        if t.id == sessionId then { t with agentSessionId := some agentSessionId } else t)
      match s.projectId with
      | some pid => (updateProjectStore store pid agentSessionId, sessions')
      | none => (store, sessions')

/-! ## Local compute backend (`backend/src/container.ts`) -/

/-- A docker-mode session record. -/
structure DockerSession where
  id : String
  containerId : String
  containerName : String
  previewPort : Nat
  agentPort : Nat
  createdAt : Nat
deriving DecidableEq

/-- Environment of one docker `createSession` call.  `createResult` is the
`docker.createContainer` outcome (the created container id), `startResult`
the `container.start()` outcome.  `unitEverReady` records whether the
container's services ever report ready; the source never consults any
readiness signal, the field exists only so the spec's readiness claim can
be stated about this backend. -/
structure DockerEnv where
  createResult : Except String String
  startResult : Except String Unit
  unitEverReady : Bool

/-- Docker `createSession`: allocate the next port pair, create and start the
container, then register the session — with no readiness wait of any kind.
Creation/start failures propagate (no `try`/`catch`) with nothing
registered.  Returns (outcome, registry, port counter). -/
def createSessionDocker (env : DockerEnv) (sessionId : String) (now portCounter : Nat)
    (sessions : List DockerSession) :
    Except String DockerSession × List DockerSession × Nat :=
  let previewPort := 4100 + portCounter
  let agentPort := 4200 + portCounter
  let counter := portCounter + 1
  match env.createResult with
  | .error msg => (.error msg, sessions, counter)
  | .ok containerId =>
      match env.startResult with
      | .error msg => (.error msg, sessions, counter)
      | .ok _ =>
          let s : DockerSession :=
            { id := sessionId
              containerId := containerId
              containerName := "storydream-" ++ sessionId.take 8
              previewPort := previewPort
              agentPort := agentPort
              createdAt := now }
          (.ok s, sessions ++ [s], counter)

/-- Docker `destroySession`: no-op for an unknown id; `container.stop()` is
wrapped in `try`/`catch` (a stopped container is expected), then
`sessions.delete(sessionId)`.  Total: no teardown error propagates. -/
def destroySessionDocker (stopResult : Except String Unit)
    (sessions : List DockerSession) (sessionId : String) : List DockerSession :=
  match sessions.find? (fun s => s.id == sessionId) with
  | none => sessions
  | some _ =>
      let _stop : Unit := match stopResult with | .ok _ => () | .error _ => ()
      sessions.filter (fun t => !(t.id == sessionId))

/-! ## Client connection bridge (`backend/src/websocket.ts`) -/

/-- Per-connection bridge state, abstracted to what the grace-period claims
observe.  `sessionId`/`timerPending` mirror the `ClientConnection` record's
`sessionId` and `cleanupTimer` fields; `sessionLive` tracks whether the
session still exists in the backend registry; `destroyCount` counts the
`destroySession` calls issued for that session; `createCount` counts
compute creations (`createSession` calls). -/
structure BridgeState where
  sessionId : Option String
  agentOpen : Bool
  timerPending : Bool
  sessionLive : Bool
  destroyCount : Nat
  createCount : Nat
deriving DecidableEq

/-- The `ws.on('close')` handler: when the connection holds a session,
schedule its destruction after the 30s `SESSION_CLEANUP_DELAY` grace
period — destruction itself does not run here. -/
def bridgeDisconnect (s : BridgeState) : BridgeState :=
  if s.sessionId.isSome then { s with timerPending := true } else s

/-- The scheduled cleanup callback firing after the grace period: destroy the
session if one is held and close the agent channel.  A fired timer cannot
fire again. -/
def bridgeTimerFire (s : BridgeState) : BridgeState :=
  if s.timerPending then
    let s1 :=
      if s.sessionId.isSome then
        { s with destroyCount := s.destroyCount + 1, sessionLive := false }
      else s
    { s1 with timerPending := false, agentOpen := false }
  else s

/-- Modelled from the spec: the reconnect path of the kubernetes-era bridge
(`backend/src/websocket.ts`, imported by `backend/src/index.ts` but absent
from the sources; only the older docker-era revision is present).  Per
§4.3/§8, a client reconnecting to the same logical session before the grace
period expires cancels the pending cleanup timer and resumes the existing
session without creating new compute. -/
def bridgeReconnect (s : BridgeState) : BridgeState :=
  if s.timerPending then { s with timerPending := false } else s

/-! ## Agent server (`project-container/agent/src/server.ts`) -/

/-- Per-agent-connection state: the resume token, initialised from the
`AGENT_SESSION_ID` environment variable (empty means none). -/
structure AgentConnState where
  sessionId : Option String
deriving DecidableEq

/-- The query options that matter to the claims: whether the
`claude_code`-preset system prompt was included (only for new sessions) and
which session was resumed. -/
structure QueryOptions where
  usedSystemPrompt : Bool
  resume : Option String
deriving DecidableEq

/-- Messages the agent server sends to the bridge over its WebSocket. -/
inductive AgentMsg
  | sessionIdMsg (sessionId : String)
  | agentMessage
  | complete
deriving DecidableEq

/-- The agent server's `prompt` handler: build query options (system prompt
for a new session, `resume` otherwise), stream the query, and when the
SDK's system-init message reports a session id differing from the current
one, record it and notify the bridge with a `session_id` message before the
wrapped `agent_message`; finish with `complete`. -/
def handlePrompt (st : AgentConnState) (sdkInitSessionId : String) :
    AgentConnState × QueryOptions × List AgentMsg :=
  let opts : QueryOptions :=
    match st.sessionId with
    | none => { usedSystemPrompt := true, resume := none }
    | some sid => { usedSystemPrompt := false, resume := some sid }
  if st.sessionId = some sdkInitSessionId then
    (st, opts, [.agentMessage, .complete])
  else
    ({ sessionId := some sdkInitSessionId }, opts,
     [.sessionIdMsg sdkInitSessionId, .agentMessage, .complete])

/-- Modelled from the spec: the kubernetes-era bridge's agent-message handler
(`backend/src/websocket.ts`, absent from the sources).  Per §6, the bridge
receives `{type: "session_id", sessionId}` envelopes from the agent and
persists the token against the connection's session (and thereby its
project) via `updateSessionAgentId`; other envelopes are forwarded to the
client unchanged, with no effect on the stores. -/
def bridgeOnAgentMsg (store : List (String × Project)) (sessions : List Session)
    (clientSessionId : String) : AgentMsg → List (String × Project) × List Session
  | .sessionIdMsg sid => updateSessionAgentId store sessions clientSessionId sid
  | _ => (store, sessions)

/-- Process a stream of agent messages through the bridge handler. -/
def bridgeOnAgentMsgs (store : List (String × Project)) (sessions : List Session)
    (clientSessionId : String) : List AgentMsg → List (String × Project) × List Session
  | [] => (store, sessions)
  | m :: ms =>
      let (store', sessions') := bridgeOnAgentMsg store sessions clientSessionId m
      bridgeOnAgentMsgs store' sessions' clientSessionId ms

/-! ## Concrete fixtures for counterexamples and witnesses -/

/-- A freshly created render job state. -/
def rcState0 : RState := initialRenderState "proj-1" "render-1"

/-- Completion metadata left in storage by the finished batch unit. -/
def rcMetaCompleted : RenderMeta :=
  { status := "completed", outputUrl := some "https://out.example/video.mp4", error := none }

/-- Trace: the job starts running, then the user cancels it (the unit
deletion succeeds, the job is marked failed).  `cancelRenderJob` does not
clear the poll interval. -/
def rcTraceCancel : List REvent := [.tickRead .active, .tickWrite 0, .cancel true]

/-- Continuation: the next poll tick finds the unit deleted (404) and falls
back to the completion metadata. -/
def rcTraceCancelExt : List REvent :=
  [.tickRead (.notFound (some rcMetaCompleted)), .tickWrite 0]

/-- Trace with overlapping poll callbacks: a slow `active` read is still
pending when a later tick's `succeeded` read resumes first and completes
the job; the stale `active` callback then resumes. -/
def rcTraceOverlap : List REvent :=
  [.tickRead .active, .tickRead (.succeeded none), .tickWrite 1]

/-- A non-terminal in-memory render job. -/
def cJobRunning : RenderJob :=
  { renderId := "render-1", projectId := "proj-1", status := .running,
    createdAt := 5, completedAt := none, outputUrl := none, error := none, progress := 10 }

/-- A completed in-memory render job. -/
def cJobDone : RenderJob :=
  { renderId := "render-2", projectId := "proj-1", status := .completed,
    createdAt := 9, completedAt := some 11, outputUrl := some "https://out.example/a.mp4",
    error := none, progress := 100 }

/-- A docker-backend environment in which creation and start succeed but the
container's services never report ready. -/
def cDockerEnvNeverReady : DockerEnv :=
  { createResult := .ok "container-1", startResult := .ok (), unitEverReady := false }

/-- A cluster environment whose pod never becomes ready. -/
def cK8sEnvNeverReady : K8sEnv :=
  { projectLookup := .ok none
    createPodResult := .ok ()
    podReads := fun _ => .readOk "Pending" [false] none }

/-- A cluster environment whose pod is ready at the first poll. -/
def cK8sEnvReady : K8sEnv :=
  { projectLookup := .ok none
    createPodResult := .ok ()
    podReads := fun _ => .readOk "Running" [true] (some "10.0.0.7") }

/-- A registered cluster session for the fixtures. -/
def cSession : Session :=
  { id := "sess-1", shortId := "sess-1su", projectId := some "proj-1",
    podName := "session-sess-1su", serviceName := "session-sess-1su-svc",
    podIp := some "10.0.0.7", previewPort := 3000, agentPort := 3001,
    agentSessionId := none, createdAt := 0 }

/-- A bridge connection holding that session, no timer pending. -/
def cBridge : BridgeState :=
  { sessionId := some "sess-1", agentOpen := true, timerPending := false,
    sessionLive := true, destroyCount := 0, createCount := 1 }

/-- Witness fixture: a poll callback in flight that observed a 404 with
completed metadata. -/
def rcStateNF : RState :=
  { rcState0 with status := .running, inflight := [.notFound (some rcMetaCompleted)] }

/-- Expected result of `createSessionK8s cK8sEnvReady "sessabcd" none 0 []`. -/
def cSessionK8s : Session :=
  { id := "sessabcd", shortId := "sessabcd", projectId := none,
    podName := "session-sessabcd", serviceName := "session-sessabcd-svc",
    podIp := some "10.0.0.7", previewPort := 3000, agentPort := 3001,
    agentSessionId := none, createdAt := 0 }

/-- External project store fixture: one project with no stored resume token. -/
def cStore : List (String × Project) := [("proj-1", { agentSessionId := none })]

/-- A cluster environment whose pod creation is rejected. -/
def cK8sEnvRejected : K8sEnv :=
  { projectLookup := .ok none
    createPodResult := .error "unit creation rejected"
    podReads := fun _ => .readOk "Pending" [] none }

/-- A docker environment whose container creation is rejected. -/
def cDockerEnvRejected : DockerEnv :=
  { createResult := .error "unit creation rejected", startResult := .ok (),
    unitEverReady := true }

/-- A teardown environment in which both the final sync and the pod deletion
fail. -/
def cDestroyEnvFailing : DestroyEnv :=
  { syncResult := .error "sync failed", deletePodResult := .error "deletion failed" }

/-! ## Helper lemmas -/

theorem RStatus.le_refl (a : RStatus) : a.le a = true := by
  cases a <;> rfl

theorem RStatus.le_trans {a b c : RStatus} (h1 : a.le b = true) (h2 : b.le c = true) :
    a.le c = true := by
  cases a <;> cases b <;> cases c <;> simp_all [RStatus.le]

/-- `find?` over a conditional update map: the first match is updated, the
rest of the lookup is unchanged, provided the update preserves the
predicate. -/
theorem find?_update_eq {α : Type} (p : α → Bool) (g : α → α)
    (hg : ∀ x, p x = true → p (g x) = true) (l : List α) :
    (l.map (fun x => if p x then g x else x)).find? p = (l.find? p).map g := by
  induction l with
  | nil => rfl
  | cons x xs ih =>
      by_cases hx : p x = true
      · simp [List.find?, hx, hg x hx]
      · simp only [Bool.not_eq_true] at hx
        simp [List.find?, hx, ih]

/-- `find?` commutes with a filter that can only drop non-matching
elements. -/
theorem find?_filter_of_imp {α : Type} (p q : α → Bool)
    (h : ∀ x, q x = true → p x = true) (l : List α) :
    (l.filter p).find? q = l.find? q := by
  induction l with
  | nil => rfl
  | cons x xs ih =>
      by_cases hq : q x = true
      · simp [List.filter, h x hq, List.find?, hq]
      · simp only [Bool.not_eq_true] at hq
        by_cases hp : p x = true
        · simp [List.filter, hp, List.find?, hq, ih]
        · simp only [Bool.not_eq_true] at hp
          simp [List.filter, hp, List.find?, hq, ih]

/-- If every poll read is unready, `waitForPodReady` times out. -/
theorem waitForPodReady_eq_none (reads : Nat → PodRead)
    (h : ∀ n, podTick (reads n) = none) :
    ∀ fuel tick, waitForPodReady reads fuel tick = none := by
  intro fuel
  induction fuel with
  | zero => intro tick; rfl
  | succ n ih => intro tick; simp [waitForPodReady, h tick, ih]

/-- A list of length at most one that has an element at some position is the
singleton of that element, indexed at zero. -/
theorem length_le_one_getElem_some {α : Type} {l : List α} {i : Nat} {x : α}
    (hl : l.length ≤ 1) (h : l[i]? = some x) : l = [x] ∧ i = 0 := by
  match l, i with
  | [], i => simp at h
  | [a], 0 =>
      simp only [List.getElem?_cons_zero, Option.some.injEq] at h
      simp [h]
  | [a], i + 1 => simp at h
  | a :: b :: t, i => simp at hl

/-- A returned pod IP was reported ready by some poll read. -/
theorem waitForPodReady_eq_some (reads : Nat → PodRead) :
    ∀ fuel tick ip, waitForPodReady reads fuel tick = some ip →
      ∃ n, podTick (reads n) = some ip := by
  intro fuel
  induction fuel with
  | zero => intro tick ip h; exact absurd h (by simp [waitForPodReady])
  | succ n ih =>
      intro tick ip h
      simp only [waitForPodReady] at h
      cases hr : podTick (reads tick) with
      | some ip0 => rw [hr] at h; exact ⟨tick, by rw [hr, ← Option.some_inj.mp h]⟩
      | none => rw [hr] at h; exact ih (tick + 1) ip h

/-- Single-step monotonicity and invariant preservation for the render state
machine, for steps other than cancellation, with the ceiling firing only
while no poll callback is in flight. -/
theorem rstep_mono (s : RState) (e : REvent) (hInv : RInv s)
    (hc : e.isCancel = false)
    (hq : (e.isTickRead || e.isCeiling) = true → s.inflight = []) :
    s.status.le (rstep s e).status = true ∧ RInv (rstep s e) := by
  obtain ⟨hlen, hterm⟩ := hInv
  cases e with
  | cancel ok => simp [REvent.isCancel] at hc
  | tickRead r =>
      have hqe : s.inflight = [] := hq (by simp [REvent.isTickRead])
      by_cases hb : s.pollActive = true
      · refine ⟨by simp [rstep, hb, RStatus.le_refl], ?_, ?_⟩
        · simp [rstep, hb, hqe]
        · intro ht
          simp only [rstep, hb, if_true] at ht
          exact absurd (hterm ht).1 (by simp [hb])
      · simp only [Bool.not_eq_true] at hb
        exact ⟨by simp [rstep, hb, RStatus.le_refl],
               by simpa [rstep, hb] using ⟨hlen, hterm⟩⟩
  | ceiling =>
      have hqe : s.inflight = [] := hq (by simp [REvent.isCeiling])
      by_cases ha : s.ceilingArmed = true
      · by_cases hpr : s.status = .pending || s.status = .running
        · refine ⟨?_, ?_, ?_⟩
          · simp only [rstep, ha, if_true, hpr]
            rcases Bool.or_eq_true_iff.mp hpr with h | h <;>
              simp_all [RStatus.le]
          · simp [rstep, ha, hpr, hqe]
          · intro _
            simp only [rstep, ha, if_true, hpr]
            exact ⟨by simp, hqe⟩
        · refine ⟨?_, ?_, ?_⟩
          · simp [rstep, ha, hpr, RStatus.le_refl]
          · simp [rstep, ha, hpr, hqe]
          · intro _
            simp only [rstep, ha, hpr, if_true, if_false]
            exact ⟨by simp, hqe⟩
      · simp only [Bool.not_eq_true] at ha
        exact ⟨by simp [rstep, ha, RStatus.le_refl],
               by simpa [rstep, ha] using ⟨hlen, hterm⟩⟩
  | tickWrite idx =>
      cases hf : s.inflight[idx]? with
      | none =>
          exact ⟨by simp [rstep, hf, RStatus.le_refl],
                 by simpa [rstep, hf] using ⟨hlen, hterm⟩⟩
      | some r =>
          obtain ⟨hl, hi⟩ := length_le_one_getElem_some hlen hf
          subst hi
          have hnt : s.status.isTerminal = false := by
            by_contra hcon
            simp only [Bool.not_eq_false] at hcon
            rw [(hterm hcon).2] at hf
            simp at hf
          have herase : s.inflight.eraseIdx 0 = [] := by rw [hl]; rfl
          simp only [rstep, hf]
          rw [herase]
          cases r with
          | succeeded meta =>
              refine ⟨?_, ?_, ?_⟩
              · cases hs : s.status <;> simp_all [applyRead, RStatus.le, RStatus.isTerminal]
              · simp [applyRead]
              · intro _; simp [applyRead]
          | failedJob meta =>
              refine ⟨?_, ?_, ?_⟩
              · cases hs : s.status <;> simp_all [applyRead, RStatus.le, RStatus.isTerminal]
              · simp [applyRead]
              · intro _; simp [applyRead]
          | active =>
              by_cases hr : s.status = RStatus.running
              · refine ⟨by simp [applyRead, hr, RStatus.le], ?_, ?_⟩
                · simp [applyRead, hr]
                · intro ht
                  simp only [applyRead, hr, if_true] at ht
                  simp_all [RStatus.isTerminal]
              · refine ⟨?_, ?_, ?_⟩
                · cases hs : s.status <;> simp_all [applyRead, RStatus.le, RStatus.isTerminal]
                · simp [applyRead, hr]
                · intro ht
                  simp only [applyRead, hr] at ht
                  simp_all [RStatus.isTerminal]
          | inconclusive =>
              refine ⟨by simp [applyRead, RStatus.le_refl], ?_, ?_⟩
              · simp [applyRead]
              · intro ht
                simp only [applyRead] at ht
                simp_all [RStatus.isTerminal]
          | readErr =>
              refine ⟨by simp [applyRead, RStatus.le_refl], ?_, ?_⟩
              · simp [applyRead]
              · intro ht
                simp only [applyRead] at ht
                simp_all [RStatus.isTerminal]
          | notFound meta =>
              refine ⟨?_, ?_, ?_⟩
              · rcases meta with _ | m
                · cases hs : s.status <;> simp_all [applyRead, RStatus.le, RStatus.isTerminal]
                · rcases m with ⟨mst, murl, merr⟩
                  rcases murl with _ | u
                  · cases hs : s.status <;>
                      by_cases hmf : mst = "failed" <;>
                        simp_all [applyRead, RStatus.le, RStatus.isTerminal]
                  · cases hs : s.status <;>
                      by_cases hmc : mst = "completed" <;>
                        by_cases hmf : mst = "failed" <;>
                          simp_all [applyRead, RStatus.le, RStatus.isTerminal]
              · rcases meta with _ | m
                · simp [applyRead]
                · rcases m with ⟨mst, murl, merr⟩
                  rcases murl with _ | u <;>
                    by_cases hmc : mst = "completed" <;>
                      by_cases hmf : mst = "failed" <;>
                        simp_all [applyRead]
              · intro _
                rcases meta with _ | m
                · simp [applyRead]
                · rcases m with ⟨mst, murl, merr⟩
                  rcases murl with _ | u <;>
                    by_cases hmc : mst = "completed" <;>
                      by_cases hmf : mst = "failed" <;>
                        simp_all [applyRead]

/-- Trace-level monotonicity plus invariant preservation. -/
theorem runR_mono_aux (tr : List REvent) : ∀ s, RInv s → goodR s tr = true →
    s.status.le (runR s tr).status = true ∧ RInv (runR s tr) := by
  induction tr with
  | nil => intro s h _; exact ⟨RStatus.le_refl _, h⟩
  | cons e tr ih =>
      intro s hInv hg
      simp only [goodR, Bool.and_eq_true] at hg
      obtain ⟨⟨hc, hser⟩, hrest⟩ := hg
      have hc' : e.isCancel = false := by simpa using hc
      have hq' : (e.isTickRead || e.isCeiling) = true → s.inflight = [] := by
        intro hre
        rcases Bool.or_eq_true_iff.mp hser with h | h
        · rw [hre] at h
          simp at h
        · simpa [List.isEmpty_iff] using h
      obtain ⟨h1, h2⟩ := rstep_mono s e hInv hc' hq'
      obtain ⟨h3, h4⟩ := ih (rstep s e) h2 hrest
      exact ⟨RStatus.le_trans h1 h3, h4⟩

/-- C3 (amended): for every execution in which no explicit cancellation
occurs and poll callbacks are serialized (each poll callback's read is
applied before the next interval tick or the ceiling fires), the job
status only moves forward along pending→running→{completed, failed},
terminal statuses absorbing. -/
theorem renderStatusMonotone (s : RState) (tr : List REvent) (hInv : RInv s)
    (hg : goodR s tr = true) : s.status.le (runR s tr).status = true :=
  (runR_mono_aux tr s hInv hg).1

theorem renderStatusMonotone_witness :
    RInv rcState0 ∧
    goodR rcState0 [.tickRead .active, .tickWrite 0, .ceiling] = true ∧
    RStatus.le rcState0.status
      (runR rcState0 [.tickRead .active, .tickWrite 0, .ceiling]).status = true :=
  ⟨by unfold RInv; decide, by decide,
   renderStatusMonotone rcState0 _ (by unfold RInv; decide) (by decide)⟩

/-- C3 counterexample: over all reachable interleavings the claim is false,
with one reachable trace for each exclusion of the amendment.
Overlapping poll callbacks (no cancellation, no ceiling): a stale `active`
read resuming after a later `succeeded` write moves `completed` back to
`running`.  Cancellation: `cancelRenderJob` does not stop the poll loop,
so the next tick observes the deleted unit (404) with completed metadata
and moves `failed` back to `completed`.  Ceiling during an in-flight read:
the resumed callback moves the forced-`failed` job back to `running`. -/
theorem renderStatusMonotone_counterexample :
    (¬ (∀ (tr tr' : List REvent),
        (runR rcState0 tr).status = .completed →
        (runR rcState0 (tr ++ tr')).status ≠ .running)) ∧
    (¬ (∀ (tr tr' : List REvent),
        (runR rcState0 tr).status = .failed →
        (runR rcState0 (tr ++ tr')).status ≠ .completed)) ∧
    (¬ (∀ (tr tr' : List REvent),
        (runR rcState0 tr).status = .failed →
        (runR rcState0 (tr ++ tr')).status ≠ .running)) := by
  refine ⟨fun h => h rcTraceOverlap [.tickWrite 0] rfl rfl,
          fun h => h rcTraceCancel rcTraceCancelExt rfl rfl,
          fun h => h [.tickRead .active, .ceiling] [.tickWrite 0] rfl rfl⟩

/-- C4 (amended): when no poll read is in flight at the moment it fires, the
15-minute ceiling stops polling, forces a still pending/running job to
`failed` with the timeout error and a `render:failed` event, and the
resulting state is terminal and frozen under every further event. -/
theorem renderCeilingForcesTerminal (s : RState)
    (hq : s.inflight = []) (ha : s.ceilingArmed = true) :
    (rstep s .ceiling).pollActive = false ∧
    (rstep s .ceiling).status.isTerminal = true ∧
    ((s.status = .pending ∨ s.status = .running) →
       (rstep s .ceiling).status = .failed ∧
       (rstep s .ceiling).error = some "Render job timed out" ∧
       (rstep s .ceiling).emitted = s.emitted ++ [.failed "Render job timed out"]) ∧
    (∀ e, rstep (rstep s .ceiling) e = rstep s .ceiling) := by
  by_cases hpr : s.status = RStatus.pending ∨ s.status = RStatus.running
  · have hstep : rstep s .ceiling =
        { s with ceilingArmed := false, pollActive := false, status := .failed,
                 error := some "Render job timed out",
                 emitted := s.emitted ++ [.failed "Render job timed out"] } := by
      rcases hpr with h | h <;> simp [rstep, ha, h]
    refine ⟨by simp [hstep], by simp [hstep, RStatus.isTerminal],
            fun _ => ⟨by simp [hstep], by simp [hstep], by simp [hstep]⟩, ?_⟩
    intro e
    rw [hstep]
    cases e <;> simp [rstep, hq, List.getElem?_nil, RStatus.isTerminal]
  · have hnp : s.status ≠ RStatus.pending := fun hcon => hpr (Or.inl hcon)
    have hnr : s.status ≠ RStatus.running := fun hcon => hpr (Or.inr hcon)
    have hstep : rstep s .ceiling = { s with ceilingArmed := false, pollActive := false } := by
      simp [rstep, ha, hnp, hnr]
    have hterm : s.status.isTerminal = true := by
      cases hss : s.status <;> simp_all [RStatus.isTerminal]
    refine ⟨by simp [hstep], by simp [hstep, hterm],
            fun hcon => absurd hcon (by tauto), ?_⟩
    intro e
    rw [hstep]
    cases e <;> simp [rstep, hq, List.getElem?_nil, hterm]

/-- C4 counterexample: the claim fails when a poll read is in flight at the
ceiling — reachable, since the interval keeps firing every 5s right up to
the deadline.  The ceiling forces `failed` and clears the interval, but
the stale `active` callback then resumes and sets the job back to
`running`; with polling stopped and no callback left, every further
poll or ceiling event is a no-op, so the job never reaches a terminal
status. -/
theorem renderCeilingForcesTerminal_counterexample :
    (runR rcState0 [.tickRead .active, .ceiling, .tickWrite 0]).status = .running ∧
    (runR rcState0 [.tickRead .active, .ceiling, .tickWrite 0]).pollActive = false ∧
    (runR rcState0 [.tickRead .active, .ceiling, .tickWrite 0]).inflight = [] ∧
    (∀ e, e.isCancel = false →
       rstep (runR rcState0 [.tickRead .active, .ceiling, .tickWrite 0]) e =
         runR rcState0 [.tickRead .active, .ceiling, .tickWrite 0]) := by
  refine ⟨rfl, rfl, rfl, ?_⟩
  intro e he
  cases e with
  | tickRead r => rfl
  | tickWrite idx => rfl
  | cancel ok => simp [REvent.isCancel] at he
  | ceiling => rfl

/-- C5: the 404 fallback decides completed vs. failed vs. unrecoverable from
the completion metadata alone, and polling stops. -/
theorem renderNotFoundFallback (s : RState) (meta : Option RenderMeta)
    (h : s.inflight = [.notFound meta]) :
    (rstep s (.tickWrite 0)).pollActive = false ∧
    (∀ u merr, meta = some ⟨"completed", some u, merr⟩ →
       (rstep s (.tickWrite 0)).status = .completed ∧
       (rstep s (.tickWrite 0)).outputUrl = some u ∧
       (rstep s (.tickWrite 0)).emitted = s.emitted ++ [.complete u]) ∧
    (∀ m, meta = some m → m.status = "failed" →
       (rstep s (.tickWrite 0)).status = .failed ∧
       (rstep s (.tickWrite 0)).error = some (m.error.getD "Render failed") ∧
       (rstep s (.tickWrite 0)).emitted = s.emitted ++ [.failed (m.error.getD "Render failed")]) ∧
    ((∀ m, meta = some m → m.status ≠ "failed" ∧
        ¬(m.status = "completed" ∧ m.outputUrl.isSome = true)) →
       (rstep s (.tickWrite 0)).status = .failed ∧
       (rstep s (.tickWrite 0)).error = some "Job not found and no metadata available") := by
  simp only [rstep, h]
  refine ⟨?_, ?_, ?_, ?_⟩
  · rcases meta with _ | ⟨mst, murl, merr⟩
    · simp [applyRead]
    · rcases murl with _ | u <;>
        by_cases h1 : mst = "completed" <;>
          by_cases h2 : mst = "failed" <;> simp_all [applyRead]
  · intro u merr hm
    subst hm
    simp [applyRead]
  · intro m hm hfail
    subst hm
    rcases m with ⟨mst, murl, merr⟩
    simp only at hfail
    subst hfail
    rcases murl with _ | u <;> simp [applyRead]
  · intro hno
    rcases meta with _ | m
    · simp [applyRead]
    · obtain ⟨hnf, hnc⟩ := hno m rfl
      rcases m with ⟨mst, murl, merr⟩
      simp only at hnf hnc
      rcases murl with _ | u
      · simp_all [applyRead]
      · by_cases h1 : mst = "completed"
        · exact absurd ⟨h1, by simp⟩ hnc
        · simp_all [applyRead]

/-- C6 counterexample: as stated the claim is false — when the
`deleteNamespacedJob` call fails, `cancelRenderJob` on a non-terminal job
also returns `false` (and leaves the job unchanged). -/
theorem cancelRenderJob_counterexample :
    ¬ (∀ (deleteResult : Except String Unit) (jobs : List RenderJob)
         (renderId : String) (j : RenderJob),
        findJob jobs renderId = some j →
        j.status ≠ .completed → j.status ≠ .failed →
        (cancelRenderJob deleteResult jobs renderId).1 = true) := by
  intro h
  have hres := h (.error "deletion rejected") [cJobRunning] "render-1" cJobRunning
    rfl (by decide) (by decide)
  exact absurd hres (by decide)

/-- C6 (amended): `cancelRenderJob` returns `false` leaving the table
unchanged for an unknown or terminal job, and also when the batch-unit
deletion call fails; when the deletion succeeds on a non-terminal job it
marks the job failed with the cancellation reason, emits `render:failed`,
and returns `true`. -/
theorem cancelRenderJob_spec (deleteResult : Except String Unit)
    (jobs : List RenderJob) (renderId : String) :
    (findJob jobs renderId = none →
       cancelRenderJob deleteResult jobs renderId = (false, jobs, [])) ∧
    (∀ j, findJob jobs renderId = some j →
       (j.status = .completed ∨ j.status = .failed) →
       cancelRenderJob deleteResult jobs renderId = (false, jobs, [])) ∧
    (∀ j msg, findJob jobs renderId = some j →
       ¬(j.status = .completed ∨ j.status = .failed) →
       deleteResult = .error msg →
       cancelRenderJob deleteResult jobs renderId = (false, jobs, [])) ∧
    (∀ j, findJob jobs renderId = some j →
       ¬(j.status = .completed ∨ j.status = .failed) →
       deleteResult = .ok () →
       (cancelRenderJob deleteResult jobs renderId).1 = true ∧
       (cancelRenderJob deleteResult jobs renderId).2.2 = [.failed "Cancelled by user"] ∧
       findJob (cancelRenderJob deleteResult jobs renderId).2.1 renderId =
         some { j with status := .failed, error := some "Cancelled by user" }) := by
  refine ⟨?_, ?_, ?_, ?_⟩
  · intro h
    simp [cancelRenderJob, h]
  · intro j hj hterm
    simp only [cancelRenderJob, hj]
    rw [if_pos hterm]
  · intro j msg hj hterm hdel
    simp only [cancelRenderJob, hj, hdel]
    rw [if_neg hterm]
  · intro j hj hterm hdel
    have hmap : (cancelRenderJob deleteResult jobs renderId).2.1 =
        jobs.map (fun t =>
          if t.renderId == renderId then
            { t with status := .failed, error := some "Cancelled by user" }
          else t) := by
      simp only [cancelRenderJob, hj, hdel]
      rw [if_neg hterm]
    refine ⟨?_, ?_, ?_⟩
    · simp only [cancelRenderJob, hj, hdel]
      rw [if_neg hterm]
    · simp only [cancelRenderJob, hj, hdel]
      rw [if_neg hterm]
    · rw [hmap]
      rw [show (findJob (jobs.map (fun t =>
            if t.renderId == renderId then
              { t with status := .failed, error := some "Cancelled by user" }
            else t)) renderId) = (findJob jobs renderId).map
              (fun t => { t with status := .failed, error := some "Cancelled by user" })
          from find?_update_eq _ _ (fun x hx => by simpa using hx) jobs]
      rw [hj]
      rfl

/-- C10: `getProjectRenders` returns exactly the jobs of the given project
(in particular, only unmodified elements of the table), sorted by
`createdAt` descending, and the empty list when the project has none. -/
theorem getProjectRenders_spec (jobs : List RenderJob) (projectId : String) :
    (getProjectRenders jobs projectId).Perm
        (jobs.filter (fun j => j.projectId == projectId)) ∧
    (∀ j, j ∈ getProjectRenders jobs projectId ↔ j ∈ jobs ∧ j.projectId = projectId) ∧
    List.Pairwise (fun a b => b.createdAt ≤ a.createdAt) (getProjectRenders jobs projectId) ∧
    ((∀ j ∈ jobs, j.projectId ≠ projectId) → getProjectRenders jobs projectId = []) := by
  refine ⟨List.mergeSort_perm _ _, ?_, ?_, ?_⟩
  · intro j
    rw [getProjectRenders, (List.mergeSort_perm _ _).mem_iff, List.mem_filter]
    simp
  · have h := @List.sorted_mergeSort RenderJob
      (fun a b => decide (b.createdAt ≤ a.createdAt))
      (fun a b c hab hbc => by
        simp only [decide_eq_true_eq] at *
        omega)
      (fun a b => by
        simp only [Bool.or_eq_true, decide_eq_true_eq]
        omega)
      (jobs.filter (fun j => j.projectId == projectId))
    exact h.imp (fun hab => of_decide_eq_true hab)
  · intro hno
    rw [getProjectRenders, show jobs.filter (fun j => j.projectId == projectId) = [] by
      rw [List.filter_eq_nil_iff]
      intro a ha
      simpa using hno a ha]
    exact List.mergeSort_nil

/-- C2 (amended, cluster backend): a successful `createSession` appends a
session whose IP was reported ready by some poll; readiness-invariant
registries stay readiness-invariant; if the pod never reports ready the
call fails with the readiness-timeout error — distinct by construction
from the startup-failure error — and the registry is unchanged. -/
theorem createSessionK8s_spec (env : K8sEnv) (sessionId : String)
    (projectId : Option String) (now : Nat) (reg : List Session) :
    (∀ s reg', createSessionK8s env sessionId projectId now reg = (.ok s, reg') →
       s.podIp.isSome = true ∧ reg' = reg ++ [s] ∧
       (∃ n, podTick (env.podReads n) = s.podIp) ∧
       ((∀ t ∈ reg, t.podIp.isSome = true) → ∀ t ∈ reg', t.podIp.isSome = true)) ∧
    ((∀ n, podTick (env.podReads n) = none) →
       ∀ u, env.createPodResult = .ok u →
       createSessionK8s env sessionId projectId now reg =
         (.error (.readinessTimeout ("session-" ++ sessionId.take 8)), reg)) ∧
    (∀ podName msg,
       SessionError.readinessTimeout podName ≠ SessionError.startupFailure msg) := by
  refine ⟨?_, ?_, by intro podName msg; simp⟩
  · intro s reg' h
    cases hc : env.createPodResult with
    | error msg => simp [createSessionK8s, hc] at h
    | ok u =>
        cases hw : waitForPodReady env.podReads readinessFuel 0 with
        | none => simp [createSessionK8s, hc, hw] at h
        | some ip =>
            simp only [createSessionK8s, hc, hw, Prod.mk.injEq, Except.ok.injEq] at h
            obtain ⟨hs, hreg⟩ := h
            subst hs
            subst hreg
            refine ⟨rfl, rfl, ?_, ?_⟩
            · simpa using waitForPodReady_eq_some env.podReads readinessFuel 0 ip hw
            · intro hall t ht
              rcases List.mem_append.mp ht with h1 | h1
              · exact hall t h1
              · rcases List.mem_singleton.mp h1 with rfl
                rfl
  · intro hnone u hok
    simp [createSessionK8s, hok, waitForPodReady_eq_none env.podReads hnone]

/-- C2 counterexample: as stated over both backends the claim is false —
the local docker backend registers the session right after starting the
container, with no readiness wait or timeout, even when the unit never
reports ready. -/
theorem createSessionK8s_spec_counterexample :
    ¬ (∀ (env : DockerEnv) (sessionId : String) (now portCounter : Nat)
         (reg : List DockerSession),
        env.unitEverReady = false →
        (createSessionDocker env sessionId now portCounter reg).2.1 = reg) := by
  intro h
  have hres := h cDockerEnvNeverReady "sid-1" 0 0 [] rfl
  exact absurd hres (by decide)

/-- C8: if the orchestration API rejects unit creation, `createSession`
propagates the error and no session is registered — for both backends. -/
theorem createSessionCreationFailure_spec (msg : String) :
    (∀ (env : K8sEnv) (sessionId : String) (projectId : Option String) (now : Nat)
       (reg : List Session),
       env.createPodResult = .error msg →
       createSessionK8s env sessionId projectId now reg =
         (.error (.startupFailure msg), reg)) ∧
    (∀ (env : DockerEnv) (sessionId : String) (now portCounter : Nat)
       (reg : List DockerSession),
       env.createResult = .error msg →
       (createSessionDocker env sessionId now portCounter reg).1 = .error msg ∧
       (createSessionDocker env sessionId now portCounter reg).2.1 = reg) := by
  constructor
  · intro env sessionId projectId now reg h
    simp [createSessionK8s, h]
  · intro env sessionId now portCounter reg h
    constructor <;> simp [createSessionDocker, h]

/-- C9: `destroySession` always removes the session from the registry and
leaves every other session untouched, and its result does not depend on
the outcomes of the teardown sub-calls (sync, pod deletion, container
stop), whose errors are caught internally — for both backends. -/
theorem destroySession_spec (env : DestroyEnv) (stopResult : Except String Unit)
    (reg : List Session) (dreg : List DockerSession) (sessionId : String) :
    getSession (destroySessionK8s env reg sessionId) sessionId = none ∧
    (∀ j, j ≠ sessionId →
       getSession (destroySessionK8s env reg sessionId) j = getSession reg j) ∧
    (∀ env', destroySessionK8s env' reg sessionId = destroySessionK8s env reg sessionId) ∧
    (destroySessionDocker stopResult dreg sessionId).find? (fun t => t.id == sessionId) =
      none ∧
    (∀ stopResult', destroySessionDocker stopResult' dreg sessionId =
       destroySessionDocker stopResult dreg sessionId) := by
  refine ⟨?_, ?_, ?_, ?_, ?_⟩
  · cases hfind : getSession reg sessionId with
    | none => simpa [destroySessionK8s, hfind] using hfind
    | some s =>
        have hred : destroySessionK8s env reg sessionId =
            reg.filter (fun t => !(t.id == sessionId)) := by
          simp [destroySessionK8s, hfind]
        rw [hred, getSession, List.find?_eq_none]
        intro x hx
        rcases List.mem_filter.mp hx with ⟨-, hx2⟩
        simp only [Bool.not_eq_true'] at hx2
        simp [hx2]
  · intro j hj
    cases hfind : getSession reg sessionId with
    | none => simp [destroySessionK8s, hfind]
    | some s =>
        have hred : destroySessionK8s env reg sessionId =
            reg.filter (fun t => !(t.id == sessionId)) := by
          simp [destroySessionK8s, hfind]
        rw [hred, getSession, getSession]
        exact find?_filter_of_imp (fun t => !(t.id == sessionId)) (fun t => t.id == j)
          (fun x hx => by
            have hxj : x.id = j := by simpa using hx
            simp [hxj, hj]) reg
  · intro env'
    cases hfind : getSession reg sessionId <;> simp [destroySessionK8s, hfind]
  · cases hfind : dreg.find? (fun t => t.id == sessionId) with
    | none => simpa [destroySessionDocker, hfind] using hfind
    | some s =>
        have hred : destroySessionDocker stopResult dreg sessionId =
            dreg.filter (fun t => !(t.id == sessionId)) := by
          simp [destroySessionDocker, hfind]
        rw [hred, List.find?_eq_none]
        intro x hx
        rcases List.mem_filter.mp hx with ⟨-, hx2⟩
        simp only [Bool.not_eq_true'] at hx2
        simp [hx2]
  · intro stopResult'
    cases hfind : dreg.find? (fun t => t.id == sessionId) <;>
      simp [destroySessionDocker, hfind]

/-- C1: disconnecting while holding a session only schedules destruction;
reconnecting before the grace period expires cancels the pending timer and
resumes the session without creating compute (a later timer event then
destroys nothing); with no reconnect, the timer's expiry destroys the
session exactly once (a further timer event destroys nothing more). -/
theorem bridgeGraceReconnect_spec (s : BridgeState)
    (hsess : s.sessionId.isSome = true) (hlive : s.sessionLive = true)
    (htimer : s.timerPending = false) (hd : s.destroyCount = 0) :
    ((bridgeDisconnect s).destroyCount = 0 ∧
     (bridgeDisconnect s).sessionLive = true ∧
     (bridgeDisconnect s).timerPending = true) ∧
    ((bridgeReconnect (bridgeDisconnect s)).timerPending = false ∧
     (bridgeReconnect (bridgeDisconnect s)).sessionLive = true ∧
     (bridgeReconnect (bridgeDisconnect s)).sessionId = s.sessionId ∧
     (bridgeReconnect (bridgeDisconnect s)).createCount = s.createCount ∧
     (bridgeTimerFire (bridgeReconnect (bridgeDisconnect s))).destroyCount = 0 ∧
     (bridgeTimerFire (bridgeReconnect (bridgeDisconnect s))).sessionLive = true) ∧
    ((bridgeTimerFire (bridgeDisconnect s)).destroyCount = 1 ∧
     (bridgeTimerFire (bridgeTimerFire (bridgeDisconnect s))).destroyCount = 1) := by
  simp [bridgeDisconnect, bridgeReconnect, bridgeTimerFire, hsess, hlive, htimer, hd]

/-- C7: starting from a session whose project had no stored
`agentSessionId`, the first prompt uses the system-prompt initialization
and makes the agent report the new session id, which the bridge persists
on the session and against the project; the second prompt on the same
connection resumes that session id and does not use the system prompt. -/
theorem agentSessionPersistence_spec (store : List (String × Project))
    (sessions : List Session) (sessId pid newId : String) (s : Session)
    (hs : getSession sessions sessId = some s)
    (hp : s.projectId = some pid)
    (hnew : s.agentSessionId = none) :
    (handlePrompt ⟨s.agentSessionId⟩ newId).2.1.usedSystemPrompt = true ∧
    (handlePrompt ⟨s.agentSessionId⟩ newId).2.1.resume = none ∧
    (handlePrompt ⟨s.agentSessionId⟩ newId).2.2 =
      [.sessionIdMsg newId, .agentMessage, .complete] ∧
    lookupProject
        (bridgeOnAgentMsgs store sessions sessId
          (handlePrompt ⟨s.agentSessionId⟩ newId).2.2).1 pid =
      (lookupProject store pid).map
        (fun p0 => { p0 with agentSessionId := some newId }) ∧
    getSession
        (bridgeOnAgentMsgs store sessions sessId
          (handlePrompt ⟨s.agentSessionId⟩ newId).2.2).2 sessId =
      some { s with agentSessionId := some newId } ∧
    (handlePrompt (handlePrompt ⟨s.agentSessionId⟩ newId).1 newId).2.1.usedSystemPrompt
      = false ∧
    (handlePrompt (handlePrompt ⟨s.agentSessionId⟩ newId).1 newId).2.1.resume =
      some newId ∧
    (handlePrompt (handlePrompt ⟨s.agentSessionId⟩ newId).1 newId).2.2 =
      [.agentMessage, .complete] := by
  rw [hnew]
  have h1 : handlePrompt ⟨none⟩ newId =
      (⟨some newId⟩, ⟨true, none⟩, [.sessionIdMsg newId, .agentMessage, .complete]) := by
    simp [handlePrompt]
  have hb : bridgeOnAgentMsgs store sessions sessId
      [.sessionIdMsg newId, .agentMessage, .complete] =
      (updateProjectStore store pid newId,
       sessions.map (fun t =>
         if t.id == sessId then { t with agentSessionId := some newId } else t)) := by
    simp [bridgeOnAgentMsgs, bridgeOnAgentMsg, updateSessionAgentId, hs, hp]
  refine ⟨by rw [h1], by rw [h1], by rw [h1], ?_, ?_, ?_, ?_, ?_⟩
  · rw [h1]
    simp only [hb, lookupProject, updateProjectStore]
    rw [find?_update_eq (fun kv => kv.1 == pid)
      (fun kv => (kv.1, { kv.2 with agentSessionId := some newId }))
      (fun x hx => by simpa using hx) store]
    cases store.find? (fun kv => kv.1 == pid) <;> rfl
  · rw [h1]
    simp only [hb, getSession]
    rw [find?_update_eq (fun t => t.id == sessId)
      (fun t => { t with agentSessionId := some newId })
      (fun x hx => by simpa using hx) sessions]
    rw [show sessions.find? (fun t => t.id == sessId) = some s from hs]
    rfl
  · rw [h1]
    simp [handlePrompt]
  · rw [h1]
    simp [handlePrompt]
  · rw [h1]
    simp [handlePrompt]

theorem renderCeilingForcesTerminal_witness :
    rcState0.inflight = [] ∧ rcState0.ceilingArmed = true ∧
    (rstep rcState0 .ceiling).pollActive = false ∧
    (rstep rcState0 .ceiling).status.isTerminal = true :=
  ⟨by decide, by decide,
   (renderCeilingForcesTerminal rcState0 (by decide) (by decide)).1,
   (renderCeilingForcesTerminal rcState0 (by decide) (by decide)).2.1⟩

theorem renderNotFoundFallback_witness :
    rcStateNF.inflight = [.notFound (some rcMetaCompleted)] ∧
    (rstep rcStateNF (.tickWrite 0)).status = .completed ∧
    (rstep rcStateNF (.tickWrite 0)).outputUrl = some "https://out.example/video.mp4" ∧
    (rstep rcStateNF (.tickWrite 0)).pollActive = false :=
  ⟨rfl,
   ((renderNotFoundFallback rcStateNF (some rcMetaCompleted) rfl).2.1
      "https://out.example/video.mp4" none rfl).1,
   ((renderNotFoundFallback rcStateNF (some rcMetaCompleted) rfl).2.1
      "https://out.example/video.mp4" none rfl).2.1,
   (renderNotFoundFallback rcStateNF (some rcMetaCompleted) rfl).1⟩

theorem cancelRenderJob_spec_witness :
    findJob [cJobRunning] "render-1" = some cJobRunning ∧
    ¬(cJobRunning.status = .completed ∨ cJobRunning.status = .failed) ∧
    (cancelRenderJob (.ok ()) [cJobRunning] "render-1").1 = true ∧
    (cancelRenderJob (.ok ()) [cJobRunning] "render-1").2.2 =
      [.failed "Cancelled by user"] :=
  ⟨rfl, by decide,
   ((cancelRenderJob_spec (.ok ()) [cJobRunning] "render-1").2.2.2 cJobRunning
      rfl (by decide) rfl).1,
   ((cancelRenderJob_spec (.ok ()) [cJobRunning] "render-1").2.2.2 cJobRunning
      rfl (by decide) rfl).2.1⟩

theorem getProjectRenders_spec_witness :
    (∀ j ∈ [cJobDone], j.projectId ≠ "proj-2") ∧
    getProjectRenders [cJobDone] "proj-2" = [] :=
  ⟨by decide, (getProjectRenders_spec [cJobDone] "proj-2").2.2.2 (by decide)⟩

theorem createSessionK8s_spec_witness :
    cSessionK8s.podIp.isSome = true ∧ [cSessionK8s] = [] ++ [cSessionK8s] ∧
    (∃ n, podTick (cK8sEnvReady.podReads n) = cSessionK8s.podIp) ∧
    ((∀ t ∈ ([] : List Session), t.podIp.isSome = true) →
       ∀ t ∈ [cSessionK8s], t.podIp.isSome = true) :=
  (createSessionK8s_spec cK8sEnvReady "sessabcd" none 0 []).1 cSessionK8s
    [cSessionK8s] (by rfl)

theorem createSessionCreationFailure_spec_witness :
    cK8sEnvRejected.createPodResult = .error "unit creation rejected" ∧
    createSessionK8s cK8sEnvRejected "sid-1" none 0 [] =
      (.error (.startupFailure "unit creation rejected"), []) ∧
    cDockerEnvRejected.createResult = .error "unit creation rejected" ∧
    (createSessionDocker cDockerEnvRejected "sid-1" 0 0 []).2.1 = [] :=
  ⟨rfl,
   (createSessionCreationFailure_spec "unit creation rejected").1 cK8sEnvRejected
     "sid-1" none 0 [] rfl,
   rfl,
   ((createSessionCreationFailure_spec "unit creation rejected").2 cDockerEnvRejected
     "sid-1" 0 0 [] rfl).2⟩

theorem destroySession_spec_witness :
    ("other-id" : String) ≠ "sess-1" ∧
    getSession (destroySessionK8s cDestroyEnvFailing [cSession] "sess-1") "sess-1" =
      none ∧
    getSession (destroySessionK8s cDestroyEnvFailing [cSession] "sess-1") "other-id" =
      getSession [cSession] "other-id" :=
  ⟨by decide,
   (destroySession_spec cDestroyEnvFailing (.ok ()) [cSession] [] "sess-1").1,
   (destroySession_spec cDestroyEnvFailing (.ok ()) [cSession] [] "sess-1").2.1
     "other-id" (by decide)⟩

theorem bridgeGraceReconnect_spec_witness :
    cBridge.sessionId.isSome = true ∧ cBridge.sessionLive = true ∧
    cBridge.timerPending = false ∧ cBridge.destroyCount = 0 ∧
    (bridgeTimerFire (bridgeDisconnect cBridge)).destroyCount = 1 ∧
    (bridgeTimerFire (bridgeTimerFire (bridgeDisconnect cBridge))).destroyCount = 1 :=
  ⟨by decide, by decide, by decide, by decide,
   (bridgeGraceReconnect_spec cBridge (by decide) (by decide) (by decide)
     (by decide)).2.2.1,
   (bridgeGraceReconnect_spec cBridge (by decide) (by decide) (by decide)
     (by decide)).2.2.2⟩

theorem agentSessionPersistence_spec_witness :
    getSession [cSession] "sess-1" = some cSession ∧
    cSession.projectId = some "proj-1" ∧ cSession.agentSessionId = none ∧
    (handlePrompt ⟨cSession.agentSessionId⟩ "abc").2.1.usedSystemPrompt = true ∧
    lookupProject
        (bridgeOnAgentMsgs cStore [cSession] "sess-1"
          (handlePrompt ⟨cSession.agentSessionId⟩ "abc").2.2).1 "proj-1" =
      (lookupProject cStore "proj-1").map
        (fun p0 => { p0 with agentSessionId := some "abc" }) ∧
    (handlePrompt (handlePrompt ⟨cSession.agentSessionId⟩ "abc").1
        "abc").2.1.usedSystemPrompt = false :=
  ⟨rfl, rfl, rfl,
   (agentSessionPersistence_spec cStore [cSession] "sess-1" "proj-1" "abc" cSession
     rfl rfl rfl).1,
   (agentSessionPersistence_spec cStore [cSession] "sess-1" "proj-1" "abc" cSession
     rfl rfl rfl).2.2.2.1,
   (agentSessionPersistence_spec cStore [cSession] "sess-1" "proj-1" "abc" cSession
     rfl rfl rfl).2.2.2.2.2.1⟩

end StoryDream
